import Mathlib

/-
Verification of the bounded, backpressure-enforcing pipeline coordinator
(the workCoordinator of the fixed example in package rule_1).

The Go source is shallowly embedded as follows.

Pure data and pure helpers are translated directly: the job and
stage1Result structs, the payload transformations performed by
processStage1 and processStage2, the metric updates trackJobStart,
trackJobEnd, recordRejection, and the snapshot read GetMetrics.
time.Time and time.Duration values are modelled as Nat (milliseconds);
Go int for the activeJobs counter is modelled as Int since it is
decremented as well as incremented.

The concurrent behaviour of the coordinator is embedded as a small-step
transition system over a global state GState.  Each constructor of Step
is one atomic event of the Go program: one select branch firing together
with the straight-line counter updates that immediately follow it in the
same goroutine.  The semaphore channel workSemaphore of capacity
maxConcurrent is the field sem (its current occupancy); acquisitions and
releases are additionally counted by the ghost fields acquired and
released.  The three stage channels are represented by the phases of the
items currently in them (a send is enabled only while the number of items
in that channel is below its capacity), worker goroutines by the alive
and busy counts per stage, context cancellation of a single item by its
cancelled flag, and cancellation of the coordinator context (Stop) by the
stopped flag.  Each distinct error return of SubmitJob increments its own
ghost counter so that the relation between returned errors and the
rejectedJobs metric can be stated.
-/

namespace Rule1

/-- The job struct: a unit of work.  The Go struct also carries the
submitting context; here an item's cancellation state lives in the
transition system (ItemState.cancelled) rather than in the record. -/
structure job where
  ID : Nat
  Data : String
  CreatedAt : Nat
  deriving DecidableEq, Repr

/-- The stage1Result struct: the intermediate result passed between
stages.  Note that it has no context field: once a job has been turned
into a stage1Result, its cancellation signal is no longer carried. -/
structure stage1Result where
  JobID : Nat
  Processed : String
  Stage : Nat
  CreatedAt : Nat
  deriving DecidableEq, Repr

/-- The stage1Result built by processStage1 from a job: the payload is
prefixed with the stage tag, the stage number is set to 1, and the
identifier and creation timestamp are copied from the job. -/
def processStage1Result (j : job) : stage1Result :=
  { JobID := j.ID
    Processed := "stage1-" ++ j.Data
    Stage := 1
    CreatedAt := j.CreatedAt }

/-- The update performed by processStage2 on a stage1Result before the
stage-3 handoff: the payload is prefixed again and the stage number is
set to 2; the other fields are kept. -/
def processStage2Result (r : stage1Result) : stage1Result :=
  { r with Processed := "stage2-" ++ r.Processed, Stage := 2 }

/-- The metrics fields of the workCoordinator struct, the state mutated
under wc.mu. -/
structure Metrics where
  activeJobs : Int
  rejectedJobs : Nat
  completedJobs : Nat
  totalLatency : Nat
  deriving DecidableEq, Repr

/-- trackJobStart: increments the active count. -/
def trackJobStart (m : Metrics) : Metrics :=
  { m with activeJobs := m.activeJobs + 1 }

/-- trackJobEnd: decrements the active count; when the job completed it
also increments the completed count and adds the latency. -/
def trackJobEnd (m : Metrics) (latency : Nat) (completed : Bool) : Metrics :=
  let m1 : Metrics := { m with activeJobs := m.activeJobs - 1 }
  if completed then
    { m1 with completedJobs := m1.completedJobs + 1
              totalLatency := m1.totalLatency + latency }
  else m1

/-- recordRejection: increments the rejected count. -/
def recordRejection (m : Metrics) : Metrics :=
  { m with rejectedJobs := m.rejectedJobs + 1 }

/-- GetMetrics: snapshot read returning, in the order of the Go return
values, the active, completed and rejected counts and the average
latency, which is the integer quotient of the cumulative latency by the
completed count when the latter is positive and remains at its zero
value otherwise. -/
def GetMetrics (m : Metrics) : Int × Nat × Nat × Nat :=
  (m.activeJobs, m.completedJobs, m.rejectedJobs,
    if 0 < m.completedJobs then m.totalLatency / m.completedJobs else 0)

/-- The configuration carried by a workCoordinator value: the capacity of
the workSemaphore channel, the three worker-pool sizes and the three
stage-channel capacities. -/
structure workCoordinator where
  maxConcurrent : Nat
  stage1Workers : Nat
  stage2Workers : Nat
  stage3Workers : Nat
  stage1Cap : Nat
  stage2Cap : Nat
  stage3Cap : Nat
  deriving DecidableEq, Repr

/-- newWorkCoordinator: the constructor takes the maximum concurrency
and fixes every other parameter: worker pools of sizes 5, 3 and 2 and
stage channels of capacities 5, 3 and 2. -/
def newWorkCoordinator (maxConcurrent : Nat) : workCoordinator :=
  { maxConcurrent := maxConcurrent
    stage1Workers := 5
    stage2Workers := 3
    stage3Workers := 2
    stage1Cap := 5
    stage2Cap := 3
    stage3Cap := 2 }

/-- The admission wait bound hard-coded in SubmitJob
(time.After(100 * time.Millisecond)), in milliseconds. -/
def admissionTimeoutMillis : Nat := 100

/-- The stage-1 handoff wait bound hard-coded in SubmitJob
(time.After(1 * time.Second)), in milliseconds. -/
def stage1HandoffTimeoutMillis : Nat := 1000

/-- Where a single admitted item currently is.  admitted: the submitting
goroutine holds a token and is at the stage1Chan send.  inStageNQ: the
item sits in the stage-N channel.  inStageNProc: a stage-N worker has
received it and is processing it or blocked at the next send.  completed
and abandoned are the terminal states in which the token has been given
back; droppedAtShutdown marks an item whose worker took the
coordinator-context branch of its select and returned without releasing
the token. -/
inductive Phase where
  | admitted
  | inStage1Q
  | inStage1Proc
  | inStage2Q
  | inStage2Proc
  | inStage3Q
  | inStage3Proc
  | completed
  | abandoned
  | droppedAtShutdown
  deriving DecidableEq, Repr

/-- A phase in which the item still holds its admission token. -/
def holdsToken : Phase → Bool
  | Phase.admitted => true
  | Phase.inStage1Q => true
  | Phase.inStage1Proc => true
  | Phase.inStage2Q => true
  | Phase.inStage2Proc => true
  | Phase.inStage3Q => true
  | Phase.inStage3Proc => true
  | Phase.completed => false
  | Phase.abandoned => false
  | Phase.droppedAtShutdown => true

/-- Occupancy test for the stage-1 channel. -/
def isInStage1Q : Phase → Bool
  | Phase.inStage1Q => true
  | _ => false

/-- Occupancy test for the stage-2 channel. -/
def isInStage2Q : Phase → Bool
  | Phase.inStage2Q => true
  | _ => false

/-- Occupancy test for the stage-3 channel. -/
def isInStage3Q : Phase → Bool
  | Phase.inStage3Q => true
  | _ => false

/-- Busy test for stage-1 workers. -/
def isInStage1Proc : Phase → Bool
  | Phase.inStage1Proc => true
  | _ => false

/-- Busy test for stage-2 workers. -/
def isInStage2Proc : Phase → Bool
  | Phase.inStage2Proc => true
  | _ => false

/-- Busy test for stage-3 workers. -/
def isInStage3Proc : Phase → Bool
  | Phase.inStage3Proc => true
  | _ => false

/-- One admitted item: its identifier, whether its own context has been
cancelled, and its current phase. -/
structure ItemState where
  id : Nat
  cancelled : Bool
  phase : Phase
  deriving DecidableEq, Repr

/-- The item record created by SubmitJob right after the semaphore send
succeeds. -/
def mkItem (i : Nat) : ItemState :=
  { id := i, cancelled := false, phase := Phase.admitted }

/-- The global state of the coordinator and of all admitted items. -/
structure GState where
  wc : workCoordinator
  stopped : Bool
  sem : Nat
  acquired : Nat
  released : Nat
  metrics : Metrics
  items : List ItemState
  alive1 : Nat
  alive2 : Nat
  alive3 : Nat
  capacityErrors : Nat
  gateCancelErrors : Nat
  backedUpErrors : Nat
  handoffCancelErrors : Nat
  deriving DecidableEq, Repr

/-- Number of items whose phase satisfies a test. -/
def countPh (f : Phase → Bool) (l : List ItemState) : Nat :=
  l.countP fun x => f x.phase

/-- Items currently holding an admission token. -/
def tokenHolders (s : GState) : Nat := countPh holdsToken s.items

/-- Current occupancy of the stage-1 channel. -/
def countQ1 (s : GState) : Nat := countPh isInStage1Q s.items

/-- Current occupancy of the stage-2 channel. -/
def countQ2 (s : GState) : Nat := countPh isInStage2Q s.items

/-- Current occupancy of the stage-3 channel. -/
def countQ3 (s : GState) : Nat := countPh isInStage3Q s.items

/-- Stage-1 workers currently processing an item. -/
def busy1 (s : GState) : Nat := countPh isInStage1Proc s.items

/-- Stage-2 workers currently processing an item. -/
def busy2 (s : GState) : Nat := countPh isInStage2Proc s.items

/-- Stage-3 workers currently processing an item. -/
def busy3 (s : GState) : Nat := countPh isInStage3Proc s.items

/-- The state right after newWorkCoordinator(maxConcurrent) followed by
Start(): empty semaphore, zeroed metrics, no items, and one live worker
goroutine per configured worker slot. -/
def initState (maxConcurrent : Nat) : GState :=
  { wc := newWorkCoordinator maxConcurrent
    stopped := false
    sem := 0
    acquired := 0
    released := 0
    metrics := { activeJobs := 0, rejectedJobs := 0, completedJobs := 0, totalLatency := 0 }
    items := []
    alive1 := (newWorkCoordinator maxConcurrent).stage1Workers
    alive2 := (newWorkCoordinator maxConcurrent).stage2Workers
    alive3 := (newWorkCoordinator maxConcurrent).stage3Workers
    capacityErrors := 0
    gateCancelErrors := 0
    backedUpErrors := 0
    handoffCancelErrors := 0 }

/-- Replace the phase of the item it inside the decomposition
pre ++ it :: post of the item list. -/
def setPhase (pre post : List ItemState) (it : ItemState) (p : Phase) : List ItemState :=
  pre ++ { it with phase := p } :: post

/-- SubmitJob, first select, semaphore branch, followed by the creation
of the job record and trackJobStart: one token is taken, the ghost
acquisition count goes up, the active count goes up and a fresh admitted
item appears. -/
def admitGateEff (s : GState) (i : Nat) : GState :=
  { s with sem := s.sem + 1
           acquired := s.acquired + 1
           metrics := trackJobStart s.metrics
           items := s.items ++ [mkItem i] }

/-- SubmitJob, first select, time.After branch: recordRejection and the
capacity error return; no token was taken. -/
def rejectGateTimeoutEff (s : GState) : GState :=
  { s with metrics := recordRejection s.metrics
           capacityErrors := s.capacityErrors + 1 }

/-- SubmitJob, first select, ctx.Done branch: recordRejection and the
cancellation error return; no token was taken. -/
def rejectGateCancelEff (s : GState) : GState :=
  { s with metrics := recordRejection s.metrics
           gateCancelErrors := s.gateCancelErrors + 1 }

/-- SubmitJob, second select, stage1Chan branch: the item enters the
stage-1 channel and SubmitJob returns nil. -/
def enqueueStage1Eff (s : GState) (pre post : List ItemState) (it : ItemState) : GState :=
  { s with items := setPhase pre post it Phase.inStage1Q }

/-- SubmitJob, second select, time.After branch: the token is put back,
trackJobEnd runs with completed = false and the backed-up error is
returned. -/
def submitTimeoutEff (s : GState) (pre post : List ItemState) (it : ItemState)
    (lat : Nat) : GState :=
  { s with sem := s.sem - 1
           released := s.released + 1
           metrics := trackJobEnd s.metrics lat false
           backedUpErrors := s.backedUpErrors + 1
           items := setPhase pre post it Phase.abandoned }

/-- SubmitJob, second select, ctx.Done branch: the token is put back,
trackJobEnd runs with completed = false and the cancellation error is
returned. -/
def submitCancelEff (s : GState) (pre post : List ItemState) (it : ItemState)
    (lat : Nat) : GState :=
  { s with sem := s.sem - 1
           released := s.released + 1
           metrics := trackJobEnd s.metrics lat false
           handoffCancelErrors := s.handoffCancelErrors + 1
           items := setPhase pre post it Phase.abandoned }

/-- stage1Worker loop, stage1Chan branch: a free stage-1 worker receives
the item and starts processStage1. -/
def pickup1Eff (s : GState) (pre post : List ItemState) (it : ItemState) : GState :=
  { s with items := setPhase pre post it Phase.inStage1Proc }

/-- processStage1 select, stage2Chan branch: the stage-1 result is handed
to the stage-2 channel. -/
def handoff12Eff (s : GState) (pre post : List ItemState) (it : ItemState) : GState :=
  { s with items := setPhase pre post it Phase.inStage2Q }

/-- processStage1 select, job.ctx.Done branch: the token is put back and
trackJobEnd runs with completed = false. -/
def handoff1CancelEff (s : GState) (pre post : List ItemState) (it : ItemState)
    (lat : Nat) : GState :=
  { s with sem := s.sem - 1
           released := s.released + 1
           metrics := trackJobEnd s.metrics lat false
           items := setPhase pre post it Phase.abandoned }

/-- processStage1 select, wc.ctx.Done branch: the worker returns without
releasing the token or updating the metrics; the item is dropped. -/
def handoff1DropEff (s : GState) (pre post : List ItemState) (it : ItemState) : GState :=
  { s with items := setPhase pre post it Phase.droppedAtShutdown }

/-- stage2Worker loop, stage2Chan branch. -/
def pickup2Eff (s : GState) (pre post : List ItemState) (it : ItemState) : GState :=
  { s with items := setPhase pre post it Phase.inStage2Proc }

/-- processStage2 select, stage3Chan branch: the updated result is handed
to the stage-3 channel.  This select has no branch for the item's own
context. -/
def handoff23Eff (s : GState) (pre post : List ItemState) (it : ItemState) : GState :=
  { s with items := setPhase pre post it Phase.inStage3Q }

/-- processStage2 select, wc.ctx.Done branch: the worker returns without
releasing the token or updating the metrics; the item is dropped. -/
def handoff2DropEff (s : GState) (pre post : List ItemState) (it : ItemState) : GState :=
  { s with items := setPhase pre post it Phase.droppedAtShutdown }

/-- stage3Worker loop, stage3Chan branch. -/
def pickup3Eff (s : GState) (pre post : List ItemState) (it : ItemState) : GState :=
  { s with items := setPhase pre post it Phase.inStage3Proc }

/-- processStage3: after the simulated work the token is put back and
trackJobEnd runs with completed = true; processStage3 has no select and
never drops an item it has received. -/
def completeEff (s : GState) (pre post : List ItemState) (it : ItemState)
    (lat : Nat) : GState :=
  { s with sem := s.sem - 1
           released := s.released + 1
           metrics := trackJobEnd s.metrics lat true
           items := setPhase pre post it Phase.completed }

/-- The environment cancels one item's context (deadline expiry or caller
cancellation). -/
def cancelItemEff (s : GState) (pre post : List ItemState) (it : ItemState) : GState :=
  { s with items := pre ++ { it with cancelled := true } :: post }

/-- Stop: wc.cancel() cancels the coordinator context. -/
def stopEff (s : GState) : GState :=
  { s with stopped := true }

/-- A stage-1 worker takes the wc.ctx.Done branch of its loop select and
returns. -/
def exit1Eff (s : GState) : GState :=
  { s with alive1 := s.alive1 - 1 }

/-- A stage-2 worker takes the wc.ctx.Done branch of its loop select and
returns. -/
def exit2Eff (s : GState) : GState :=
  { s with alive2 := s.alive2 - 1 }

/-- A stage-3 worker takes the wc.ctx.Done branch of its loop select and
returns. -/
def exit3Eff (s : GState) : GState :=
  { s with alive3 := s.alive3 - 1 }

/-- One atomic event of the coordinator.  Guards are exactly the
readiness conditions of the corresponding Go channel operations: a
channel send requires free capacity, a channel receive requires an item
or token to be present, a worker receive requires a worker goroutine not
currently busy, the admission timeout can fire only while the semaphore
is full, and the coordinator-context branches require Stop to have been
called.  SubmitJob never inspects the coordinator context, so admission
carries no stopped guard. -/
inductive Step : GState → GState → Prop where
  | admitGate (s : GState) (i : Nat)
      (hsem : s.sem < s.wc.maxConcurrent) :
      Step s (admitGateEff s i)
  | rejectGateTimeout (s : GState)
      (hfull : s.wc.maxConcurrent ≤ s.sem) :
      Step s (rejectGateTimeoutEff s)
  | rejectGateCancel (s : GState) :
      Step s (rejectGateCancelEff s)
  | enqueueStage1 (s : GState) (pre post : List ItemState) (it : ItemState)
      (hmem : s.items = pre ++ it :: post)
      (hph : it.phase = Phase.admitted)
      (hq : countQ1 s < s.wc.stage1Cap) :
      Step s (enqueueStage1Eff s pre post it)
  | submitTimeout (s : GState) (pre post : List ItemState) (it : ItemState) (lat : Nat)
      (hmem : s.items = pre ++ it :: post)
      (hph : it.phase = Phase.admitted)
      (hq : s.wc.stage1Cap ≤ countQ1 s)
      (hsem : 0 < s.sem) :
      Step s (submitTimeoutEff s pre post it lat)
  | submitCancel (s : GState) (pre post : List ItemState) (it : ItemState) (lat : Nat)
      (hmem : s.items = pre ++ it :: post)
      (hph : it.phase = Phase.admitted)
      (hc : it.cancelled = true)
      (hsem : 0 < s.sem) :
      Step s (submitCancelEff s pre post it lat)
  | pickup1 (s : GState) (pre post : List ItemState) (it : ItemState)
      (hmem : s.items = pre ++ it :: post)
      (hph : it.phase = Phase.inStage1Q)
      (hw : busy1 s < s.alive1) :
      Step s (pickup1Eff s pre post it)
  | handoff12 (s : GState) (pre post : List ItemState) (it : ItemState)
      (hmem : s.items = pre ++ it :: post)
      (hph : it.phase = Phase.inStage1Proc)
      (hq : countQ2 s < s.wc.stage2Cap) :
      Step s (handoff12Eff s pre post it)
  | handoff1Cancel (s : GState) (pre post : List ItemState) (it : ItemState) (lat : Nat)
      (hmem : s.items = pre ++ it :: post)
      (hph : it.phase = Phase.inStage1Proc)
      (hc : it.cancelled = true)
      (hsem : 0 < s.sem) :
      Step s (handoff1CancelEff s pre post it lat)
  | handoff1Drop (s : GState) (pre post : List ItemState) (it : ItemState)
      (hmem : s.items = pre ++ it :: post)
      (hph : it.phase = Phase.inStage1Proc)
      (hstop : s.stopped = true) :
      Step s (handoff1DropEff s pre post it)
  | pickup2 (s : GState) (pre post : List ItemState) (it : ItemState)
      (hmem : s.items = pre ++ it :: post)
      (hph : it.phase = Phase.inStage2Q)
      (hw : busy2 s < s.alive2) :
      Step s (pickup2Eff s pre post it)
  | handoff23 (s : GState) (pre post : List ItemState) (it : ItemState)
      (hmem : s.items = pre ++ it :: post)
      (hph : it.phase = Phase.inStage2Proc)
      (hq : countQ3 s < s.wc.stage3Cap) :
      Step s (handoff23Eff s pre post it)
  | handoff2Drop (s : GState) (pre post : List ItemState) (it : ItemState)
      (hmem : s.items = pre ++ it :: post)
      (hph : it.phase = Phase.inStage2Proc)
      (hstop : s.stopped = true) :
      Step s (handoff2DropEff s pre post it)
  | pickup3 (s : GState) (pre post : List ItemState) (it : ItemState)
      (hmem : s.items = pre ++ it :: post)
      (hph : it.phase = Phase.inStage3Q)
      (hw : busy3 s < s.alive3) :
      Step s (pickup3Eff s pre post it)
  | complete (s : GState) (pre post : List ItemState) (it : ItemState) (lat : Nat)
      (hmem : s.items = pre ++ it :: post)
      (hph : it.phase = Phase.inStage3Proc)
      (hsem : 0 < s.sem) :
      Step s (completeEff s pre post it lat)
  | cancelItem (s : GState) (pre post : List ItemState) (it : ItemState)
      (hmem : s.items = pre ++ it :: post) :
      Step s (cancelItemEff s pre post it)
  | stop (s : GState) :
      Step s (stopEff s)
  | exit1 (s : GState)
      (hstop : s.stopped = true)
      (hidle : busy1 s < s.alive1) :
      Step s (exit1Eff s)
  | exit2 (s : GState)
      (hstop : s.stopped = true)
      (hidle : busy2 s < s.alive2) :
      Step s (exit2Eff s)
  | exit3 (s : GState)
      (hstop : s.stopped = true)
      (hidle : busy3 s < s.alive3) :
      Step s (exit3Eff s)

/-- Multi-step reachability from a start state. -/
inductive Reachable (s0 : GState) : GState → Prop where
  | refl : Reachable s0 s0
  | tail (s s2 : GState) : Reachable s0 s → Step s s2 → Reachable s0 s2

/-- Shorthand for an uncancelled item sitting in the stage-1 channel. -/
def qItem (i : Nat) : ItemState :=
  { id := i, cancelled := false, phase := Phase.inStage1Q }

/-
Concrete executions used below.  c2: a single item is admitted, flows to
the stage-2 channel, its context is cancelled there, and it nevertheless
flows on to completion.  c3: a single item is admitted, reaches the
stage-2 worker, Stop is called, the worker drops the item on the
coordinator-context branch and every worker exits.  c5: Stop is called
first and a submission is then admitted and enqueued anyway.  c6: six
items are admitted, five fill the stage-1 channel, and the sixth takes
the backed-up timeout return.
-/

def c2s0 : GState := initState 1
def c2s1 : GState := admitGateEff c2s0 0
def c2s2 : GState := enqueueStage1Eff c2s1 [] [] (mkItem 0)
def c2s3 : GState :=
  pickup1Eff c2s2 [] [] { id := 0, cancelled := false, phase := Phase.inStage1Q }
def c2s4 : GState :=
  handoff12Eff c2s3 [] [] { id := 0, cancelled := false, phase := Phase.inStage1Proc }
def c2s5 : GState :=
  cancelItemEff c2s4 [] [] { id := 0, cancelled := false, phase := Phase.inStage2Q }
def c2s6 : GState :=
  pickup2Eff c2s5 [] [] { id := 0, cancelled := true, phase := Phase.inStage2Q }
def c2s7 : GState :=
  handoff23Eff c2s6 [] [] { id := 0, cancelled := true, phase := Phase.inStage2Proc }
def c2s8 : GState :=
  pickup3Eff c2s7 [] [] { id := 0, cancelled := true, phase := Phase.inStage3Q }
def c2s9 : GState :=
  completeEff c2s8 [] [] { id := 0, cancelled := true, phase := Phase.inStage3Proc } 500

/-- A state with one cancelled item held by a stage-1 worker, used to
instantiate the stage-1 cancellation release. -/
def c2w : GState :=
  { wc := newWorkCoordinator 1
    stopped := false
    sem := 1
    acquired := 1
    released := 0
    metrics := { activeJobs := 1, rejectedJobs := 0, completedJobs := 0, totalLatency := 0 }
    items := [{ id := 0, cancelled := true, phase := Phase.inStage1Proc }]
    alive1 := 5, alive2 := 3, alive3 := 2
    capacityErrors := 0, gateCancelErrors := 0, backedUpErrors := 0, handoffCancelErrors := 0 }

def c3s0 : GState := initState 1
def c3s1 : GState := admitGateEff c3s0 0
def c3s2 : GState := enqueueStage1Eff c3s1 [] [] (mkItem 0)
def c3s3 : GState :=
  pickup1Eff c3s2 [] [] { id := 0, cancelled := false, phase := Phase.inStage1Q }
def c3s4 : GState :=
  handoff12Eff c3s3 [] [] { id := 0, cancelled := false, phase := Phase.inStage1Proc }
def c3s5 : GState :=
  pickup2Eff c3s4 [] [] { id := 0, cancelled := false, phase := Phase.inStage2Q }
def c3s6 : GState := stopEff c3s5
def c3s7 : GState :=
  handoff2DropEff c3s6 [] [] { id := 0, cancelled := false, phase := Phase.inStage2Proc }
def c3s8 : GState := exit1Eff c3s7
def c3s9 : GState := exit1Eff c3s8
def c3s10 : GState := exit1Eff c3s9
def c3s11 : GState := exit1Eff c3s10
def c3s12 : GState := exit1Eff c3s11
def c3s13 : GState := exit2Eff c3s12
def c3s14 : GState := exit2Eff c3s13
def c3s15 : GState := exit2Eff c3s14
def c3s16 : GState := exit3Eff c3s15
def c3s17 : GState := exit3Eff c3s16

def c5s0 : GState := stopEff (initState 1)
def c5s1 : GState := admitGateEff c5s0 0
def c5s2 : GState := enqueueStage1Eff c5s1 [] [] (mkItem 0)

def c6s0 : GState := initState 6
def c6s1 : GState := admitGateEff c6s0 0
def c6s2 : GState := admitGateEff c6s1 1
def c6s3 : GState := admitGateEff c6s2 2
def c6s4 : GState := admitGateEff c6s3 3
def c6s5 : GState := admitGateEff c6s4 4
def c6s6 : GState := admitGateEff c6s5 5
def c6s7 : GState :=
  enqueueStage1Eff c6s6 [] [mkItem 1, mkItem 2, mkItem 3, mkItem 4, mkItem 5] (mkItem 0)
def c6s8 : GState :=
  enqueueStage1Eff c6s7 [qItem 0] [mkItem 2, mkItem 3, mkItem 4, mkItem 5] (mkItem 1)
def c6s9 : GState :=
  enqueueStage1Eff c6s8 [qItem 0, qItem 1] [mkItem 3, mkItem 4, mkItem 5] (mkItem 2)
def c6s10 : GState :=
  enqueueStage1Eff c6s9 [qItem 0, qItem 1, qItem 2] [mkItem 4, mkItem 5] (mkItem 3)
def c6s11 : GState :=
  enqueueStage1Eff c6s10 [qItem 0, qItem 1, qItem 2, qItem 3] [mkItem 5] (mkItem 4)
def c6s12 : GState :=
  submitTimeoutEff c6s11 [qItem 0, qItem 1, qItem 2, qItem 3, qItem 4] [] (mkItem 5) 1000

/-- A state with one item held by a stage-3 worker, used to instantiate
the completion step. -/
def c10w : GState :=
  { wc := newWorkCoordinator 1
    stopped := false
    sem := 1
    acquired := 1
    released := 0
    metrics := { activeJobs := 1, rejectedJobs := 0, completedJobs := 0, totalLatency := 0 }
    items := [{ id := 0, cancelled := false, phase := Phase.inStage3Proc }]
    alive1 := 5, alive2 := 3, alive3 := 2
    capacityErrors := 0, gateCancelErrors := 0, backedUpErrors := 0, handoffCancelErrors := 0 }

theorem countPh_nil (f : Phase → Bool) : countPh f [] = 0 := rfl

theorem countPh_append (f : Phase → Bool) (l1 l2 : List ItemState) :
    countPh f (l1 ++ l2) = countPh f l1 + countPh f l2 := by
  simp [countPh, List.countP_append]

theorem countPh_cons (f : Phase → Bool) (x : ItemState) (l : List ItemState) :
    countPh f (x :: l) = countPh f l + (if f x.phase then 1 else 0) := by
  simp [countPh, List.countP_cons]

theorem countPh_decomp (f : Phase → Bool) (pre post : List ItemState) (it : ItemState) :
    countPh f (pre ++ it :: post) =
      countPh f pre + countPh f post + (if f it.phase then 1 else 0) := by
  rw [countPh_append, countPh_cons]
  omega

theorem countPh_setPhase (f : Phase → Bool) (pre post : List ItemState) (it : ItemState)
    (p : Phase) :
    countPh f (setPhase pre post it p) =
      countPh f pre + countPh f post + (if f p then 1 else 0) := by
  rw [setPhase, countPh_decomp]

theorem countPh_cancelled (f : Phase → Bool) (pre post : List ItemState) (it : ItemState) :
    countPh f (pre ++ { it with cancelled := true } :: post) =
      countPh f pre + countPh f post + (if f it.phase then 1 else 0) := by
  rw [countPh_decomp]

/-- The master safety invariant of the coordinator: the configuration is
the constructed one; the semaphore occupancy equals the number of items
holding a token and never exceeds the configured maximum; the ghost
acquisition count equals the release count plus the current token
holders; the activeJobs metric equals the token holders; and the
rejectedJobs metric counts exactly the two admission-rejection error
returns. -/
def Inv (n : Nat) (s : GState) : Prop :=
  s.wc = newWorkCoordinator n ∧
  s.sem = tokenHolders s ∧
  s.sem ≤ n ∧
  s.acquired = s.released + tokenHolders s ∧
  s.metrics.activeJobs = (tokenHolders s : Int) ∧
  s.metrics.rejectedJobs = s.capacityErrors + s.gateCancelErrors

theorem invInit (n : Nat) : Inv n (initState n) := by
  refine ⟨rfl, rfl, by simp [initState, tokenHolders, countPh_nil], rfl, rfl, rfl⟩

theorem invStep (n : Nat) (s s2 : GState) (h : Inv n s) (hs : Step s s2) : Inv n s2 := by
  obtain ⟨hwc, hsem, hle, hacq, hact, hrej⟩ := h
  cases hs with
  | admitGate i hg =>
      rw [hwc] at hg
      simp only [newWorkCoordinator] at hg
      simp [tokenHolders] at hsem hacq hact
      refine ⟨hwc, ?_, ?_, ?_, ?_, ?_⟩ <;>
        simp [admitGateEff, tokenHolders, countPh_append, countPh_cons, countPh_nil,
          mkItem, holdsToken, trackJobStart, hrej] <;>
        omega
  | rejectGateTimeout hfull =>
      refine ⟨hwc, hsem, hle, hacq, hact, ?_⟩
      simp [rejectGateTimeoutEff, recordRejection, hrej]
      omega
  | rejectGateCancel =>
      refine ⟨hwc, hsem, hle, hacq, hact, ?_⟩
      simp [rejectGateCancelEff, recordRejection, hrej]
      omega
  | enqueueStage1 pre post it hmem hph hq =>
      simp [tokenHolders, hmem, countPh_decomp, hph, holdsToken] at hsem hacq hact
      refine ⟨hwc, ?_, hle, ?_, ?_, hrej⟩ <;>
        simp [enqueueStage1Eff, tokenHolders, countPh_setPhase, holdsToken] <;>
        omega
  | submitTimeout pre post it lat hmem hph hq hsem2 =>
      simp [tokenHolders, hmem, countPh_decomp, hph, holdsToken] at hsem hacq hact
      refine ⟨hwc, ?_, ?_, ?_, ?_, ?_⟩ <;>
        simp [submitTimeoutEff, tokenHolders, countPh_setPhase, holdsToken,
          trackJobEnd, hrej] <;>
        omega
  | submitCancel pre post it lat hmem hph hc hsem2 =>
      simp [tokenHolders, hmem, countPh_decomp, hph, holdsToken] at hsem hacq hact
      refine ⟨hwc, ?_, ?_, ?_, ?_, ?_⟩ <;>
        simp [submitCancelEff, tokenHolders, countPh_setPhase, holdsToken,
          trackJobEnd, hrej] <;>
        omega
  | pickup1 pre post it hmem hph hw =>
      simp [tokenHolders, hmem, countPh_decomp, hph, holdsToken] at hsem hacq hact
      refine ⟨hwc, ?_, hle, ?_, ?_, hrej⟩ <;>
        simp [pickup1Eff, tokenHolders, countPh_setPhase, holdsToken] <;>
        omega
  | handoff12 pre post it hmem hph hq =>
      simp [tokenHolders, hmem, countPh_decomp, hph, holdsToken] at hsem hacq hact
      refine ⟨hwc, ?_, hle, ?_, ?_, hrej⟩ <;>
        simp [handoff12Eff, tokenHolders, countPh_setPhase, holdsToken] <;>
        omega
  | handoff1Cancel pre post it lat hmem hph hc hsem2 =>
      simp [tokenHolders, hmem, countPh_decomp, hph, holdsToken] at hsem hacq hact
      refine ⟨hwc, ?_, ?_, ?_, ?_, hrej⟩ <;>
        simp [handoff1CancelEff, tokenHolders, countPh_setPhase, holdsToken,
          trackJobEnd] <;>
        omega
  | handoff1Drop pre post it hmem hph hstop =>
      simp [tokenHolders, hmem, countPh_decomp, hph, holdsToken] at hsem hacq hact
      refine ⟨hwc, ?_, hle, ?_, ?_, hrej⟩ <;>
        simp [handoff1DropEff, tokenHolders, countPh_setPhase, holdsToken] <;>
        omega
  | pickup2 pre post it hmem hph hw =>
      simp [tokenHolders, hmem, countPh_decomp, hph, holdsToken] at hsem hacq hact
      refine ⟨hwc, ?_, hle, ?_, ?_, hrej⟩ <;>
        simp [pickup2Eff, tokenHolders, countPh_setPhase, holdsToken] <;>
        omega
  | handoff23 pre post it hmem hph hq =>
      simp [tokenHolders, hmem, countPh_decomp, hph, holdsToken] at hsem hacq hact
      refine ⟨hwc, ?_, hle, ?_, ?_, hrej⟩ <;>
        simp [handoff23Eff, tokenHolders, countPh_setPhase, holdsToken] <;>
        omega
  | handoff2Drop pre post it hmem hph hstop =>
      simp [tokenHolders, hmem, countPh_decomp, hph, holdsToken] at hsem hacq hact
      refine ⟨hwc, ?_, hle, ?_, ?_, hrej⟩ <;>
        simp [handoff2DropEff, tokenHolders, countPh_setPhase, holdsToken] <;>
        omega
  | pickup3 pre post it hmem hph hw =>
      simp [tokenHolders, hmem, countPh_decomp, hph, holdsToken] at hsem hacq hact
      refine ⟨hwc, ?_, hle, ?_, ?_, hrej⟩ <;>
        simp [pickup3Eff, tokenHolders, countPh_setPhase, holdsToken] <;>
        omega
  | complete pre post it lat hmem hph hsem2 =>
      simp [tokenHolders, hmem, countPh_decomp, hph, holdsToken] at hsem hacq hact
      refine ⟨hwc, ?_, ?_, ?_, ?_, ?_⟩ <;>
        simp [completeEff, tokenHolders, countPh_setPhase, holdsToken,
          trackJobEnd, hrej] <;>
        omega
  | cancelItem pre post it hmem =>
      simp [tokenHolders, hmem, countPh_decomp] at hsem hacq hact
      refine ⟨hwc, ?_, hle, ?_, ?_, hrej⟩ <;>
        simp [cancelItemEff, tokenHolders, countPh_cancelled] <;>
        omega
  | stop =>
      exact ⟨hwc, hsem, hle, hacq, hact, hrej⟩
  | exit1 hstop hidle =>
      exact ⟨hwc, hsem, hle, hacq, hact, hrej⟩
  | exit2 hstop hidle =>
      exact ⟨hwc, hsem, hle, hacq, hact, hrej⟩
  | exit3 hstop hidle =>
      exact ⟨hwc, hsem, hle, hacq, hact, hrej⟩

theorem invReachable (n : Nat) (s : GState)
    (h : Reachable (initState n) s) : Inv n s := by
  induction h with
  | refl => exact invInit n
  | tail s s2 hr hs ih => exact invStep n s s2 ih hs

/-- C1: in every state reachable by any sequence of SubmitJob calls and
pipeline events against a coordinator built with maximum concurrency n,
the number of items that have acquired an admission token and not yet
released it never exceeds n: admission happens only through the
semaphore send, whose guard requires free capacity. -/
theorem C1_admission_bound (n : Nat) (s : GState)
    (h : Reachable (initState n) s) : tokenHolders s ≤ n := by
  obtain ⟨hwc, hsem, hle, hacq, hact, hrej⟩ := invReachable n s h
  omega

theorem C1_witness : tokenHolders (admitGateEff (initState 2) 0) ≤ 2 :=
  C1_admission_bound 2 (admitGateEff (initState 2) 0)
    (Reachable.tail (initState 2) (admitGateEff (initState 2) 0) Reachable.refl
      (Step.admitGate (initState 2) 0 (by decide)))

/-- C3 (amended): at every reachable state the number of token
acquisitions minus releases equals the number of admitted non-terminal
items, which is also what the activeJobs metric reports; the
after-Stop-and-drain half of the original claim is refuted separately,
because workers that observe the coordinator context mid-handoff drop
the item without releasing its token. -/
theorem C3_token_accounting (n : Nat) (s : GState)
    (h : Reachable (initState n) s) :
    s.acquired = s.released + tokenHolders s ∧
    s.metrics.activeJobs = (tokenHolders s : Int) := by
  obtain ⟨hwc, hsem, hle, hacq, hact, hrej⟩ := invReachable n s h
  exact ⟨hacq, hact⟩

theorem C3_witness :
    (admitGateEff (initState 2) 0).acquired
        = (admitGateEff (initState 2) 0).released + tokenHolders (admitGateEff (initState 2) 0) ∧
    (admitGateEff (initState 2) 0).metrics.activeJobs
        = (tokenHolders (admitGateEff (initState 2) 0) : Int) :=
  C3_token_accounting 2 (admitGateEff (initState 2) 0)
    (Reachable.tail (initState 2) (admitGateEff (initState 2) 0) Reachable.refl
      (Step.admitGate (initState 2) 0 (by decide)))

/-- C3 counterexample: a drained post-Stop state with an unreleased
token.  One item is admitted and reaches the stage-2 worker, Stop is
called, the worker takes the coordinator-context branch of the stage-3
handoff select and returns without releasing the token, and every worker
then exits.  The resulting state is stopped, has no live workers, no
busy workers and empty stage channels, yet one acquisition was never
released. -/
theorem C3_counterexample :
    Reachable (initState 1) c3s17 ∧
    c3s17.stopped = true ∧
    c3s17.alive1 = 0 ∧ c3s17.alive2 = 0 ∧ c3s17.alive3 = 0 ∧
    busy1 c3s17 = 0 ∧ busy2 c3s17 = 0 ∧ busy3 c3s17 = 0 ∧
    countQ1 c3s17 = 0 ∧ countQ2 c3s17 = 0 ∧ countQ3 c3s17 = 0 ∧
    c3s17.acquired = 1 ∧ c3s17.released = 0 := by
  have h1 : Reachable c3s0 c3s1 :=
    Reachable.tail c3s0 c3s1 Reachable.refl (Step.admitGate c3s0 0 (by decide))
  have h2 : Reachable c3s0 c3s2 :=
    Reachable.tail c3s1 c3s2 h1
      (Step.enqueueStage1 c3s1 [] [] (mkItem 0) (by decide) (by decide) (by decide))
  have h3 : Reachable c3s0 c3s3 :=
    Reachable.tail c3s2 c3s3 h2
      (Step.pickup1 c3s2 [] [] { id := 0, cancelled := false, phase := Phase.inStage1Q }
        (by decide) (by decide) (by decide))
  have h4 : Reachable c3s0 c3s4 :=
    Reachable.tail c3s3 c3s4 h3
      (Step.handoff12 c3s3 [] [] { id := 0, cancelled := false, phase := Phase.inStage1Proc }
        (by decide) (by decide) (by decide))
  have h5 : Reachable c3s0 c3s5 :=
    Reachable.tail c3s4 c3s5 h4
      (Step.pickup2 c3s4 [] [] { id := 0, cancelled := false, phase := Phase.inStage2Q }
        (by decide) (by decide) (by decide))
  have h6 : Reachable c3s0 c3s6 :=
    Reachable.tail c3s5 c3s6 h5 (Step.stop c3s5)
  have h7 : Reachable c3s0 c3s7 :=
    Reachable.tail c3s6 c3s7 h6
      (Step.handoff2Drop c3s6 [] [] { id := 0, cancelled := false, phase := Phase.inStage2Proc }
        (by decide) (by decide) (by decide))
  have h8 : Reachable c3s0 c3s8 :=
    Reachable.tail c3s7 c3s8 h7 (Step.exit1 c3s7 (by decide) (by decide))
  have h9 : Reachable c3s0 c3s9 :=
    Reachable.tail c3s8 c3s9 h8 (Step.exit1 c3s8 (by decide) (by decide))
  have h10 : Reachable c3s0 c3s10 :=
    Reachable.tail c3s9 c3s10 h9 (Step.exit1 c3s9 (by decide) (by decide))
  have h11 : Reachable c3s0 c3s11 :=
    Reachable.tail c3s10 c3s11 h10 (Step.exit1 c3s10 (by decide) (by decide))
  have h12 : Reachable c3s0 c3s12 :=
    Reachable.tail c3s11 c3s12 h11 (Step.exit1 c3s11 (by decide) (by decide))
  have h13 : Reachable c3s0 c3s13 :=
    Reachable.tail c3s12 c3s13 h12 (Step.exit2 c3s12 (by decide) (by decide))
  have h14 : Reachable c3s0 c3s14 :=
    Reachable.tail c3s13 c3s14 h13 (Step.exit2 c3s13 (by decide) (by decide))
  have h15 : Reachable c3s0 c3s15 :=
    Reachable.tail c3s14 c3s15 h14 (Step.exit2 c3s14 (by decide) (by decide))
  have h16 : Reachable c3s0 c3s16 :=
    Reachable.tail c3s15 c3s16 h15 (Step.exit3 c3s15 (by decide) (by decide))
  have h17 : Reachable c3s0 c3s17 :=
    Reachable.tail c3s16 c3s17 h16 (Step.exit3 c3s16 (by decide) (by decide))
  exact ⟨h17, by decide, by decide, by decide, by decide, by decide, by decide, by decide,
    by decide, by decide, by decide, by decide, by decide⟩

/-- C4: net effect of each SubmitJob return path.  The two pre-admission
rejections leave the semaphore, both ghost counters, the active count
and the item list untouched; the two post-admission failure paths
(stage-1 handoff timeout, cancellation during the handoff) acquire and
then release, leaving the semaphore occupancy and the active count with
no net change; on the success path the new item has been placed in the
stage-1 channel and the token is kept. -/
theorem C4_submit_net_effect :
    (∀ s : GState,
        (rejectGateTimeoutEff s).sem = s.sem ∧
        (rejectGateTimeoutEff s).acquired = s.acquired ∧
        (rejectGateTimeoutEff s).released = s.released ∧
        (rejectGateTimeoutEff s).metrics.activeJobs = s.metrics.activeJobs ∧
        (rejectGateTimeoutEff s).items = s.items) ∧
    (∀ s : GState,
        (rejectGateCancelEff s).sem = s.sem ∧
        (rejectGateCancelEff s).acquired = s.acquired ∧
        (rejectGateCancelEff s).released = s.released ∧
        (rejectGateCancelEff s).metrics.activeJobs = s.metrics.activeJobs ∧
        (rejectGateCancelEff s).items = s.items) ∧
    (∀ (s : GState) (i lat : Nat),
        (submitTimeoutEff (admitGateEff s i) s.items [] (mkItem i) lat).sem = s.sem ∧
        (submitTimeoutEff (admitGateEff s i) s.items [] (mkItem i) lat).acquired
          = s.acquired + 1 ∧
        (submitTimeoutEff (admitGateEff s i) s.items [] (mkItem i) lat).released
          = s.released + 1 ∧
        (submitTimeoutEff (admitGateEff s i) s.items [] (mkItem i) lat).metrics.activeJobs
          = s.metrics.activeJobs) ∧
    (∀ (s : GState) (i lat : Nat),
        (submitCancelEff (admitGateEff s i) s.items [] (mkItem i) lat).sem = s.sem ∧
        (submitCancelEff (admitGateEff s i) s.items [] (mkItem i) lat).acquired
          = s.acquired + 1 ∧
        (submitCancelEff (admitGateEff s i) s.items [] (mkItem i) lat).released
          = s.released + 1 ∧
        (submitCancelEff (admitGateEff s i) s.items [] (mkItem i) lat).metrics.activeJobs
          = s.metrics.activeJobs) ∧
    (∀ (s : GState) (i : Nat),
        (enqueueStage1Eff (admitGateEff s i) s.items [] (mkItem i)).items
          = s.items ++ [{ id := i, cancelled := false, phase := Phase.inStage1Q }] ∧
        (enqueueStage1Eff (admitGateEff s i) s.items [] (mkItem i)).sem = s.sem + 1 ∧
        (enqueueStage1Eff (admitGateEff s i) s.items [] (mkItem i)).metrics.activeJobs
          = s.metrics.activeJobs + 1) := by
  refine ⟨?_, ?_, ?_, ?_, ?_⟩ <;> intro s <;>
    simp [rejectGateTimeoutEff, rejectGateCancelEff, submitTimeoutEff, submitCancelEff,
      enqueueStage1Eff, admitGateEff, setPhase, mkItem, recordRejection,
      trackJobStart, trackJobEnd]

/-- C6 (amended): the rejectedJobs metric counts exactly the two
pre-admission rejections (gate timeout and gate cancellation); the
stage-1 backed-up error return does not touch it, it only runs
trackJobEnd with completed set to false. -/
theorem C6_rejection_accounting :
    (∀ (n : Nat) (s : GState), Reachable (initState n) s →
        s.metrics.rejectedJobs = s.capacityErrors + s.gateCancelErrors) ∧
    (∀ (s : GState) (pre post : List ItemState) (it : ItemState) (lat : Nat),
        (submitTimeoutEff s pre post it lat).metrics.rejectedJobs
          = s.metrics.rejectedJobs) ∧
    (∀ s : GState,
        (rejectGateTimeoutEff s).metrics.rejectedJobs = s.metrics.rejectedJobs + 1) ∧
    (∀ s : GState,
        (rejectGateCancelEff s).metrics.rejectedJobs = s.metrics.rejectedJobs + 1) := by
  refine ⟨?_, ?_, ?_, ?_⟩
  · intro n s h
    exact (invReachable n s h).2.2.2.2.2
  · intro s pre post it lat
    simp [submitTimeoutEff, trackJobEnd]
  · intro s
    simp [rejectGateTimeoutEff, recordRejection]
  · intro s
    simp [rejectGateCancelEff, recordRejection]

theorem C6_witness :
    (initState 3).metrics.rejectedJobs
      = (initState 3).capacityErrors + (initState 3).gateCancelErrors :=
  C6_rejection_accounting.1 3 (initState 3) Reachable.refl

/-- C6 counterexample: a run in which one SubmitJob call has returned
the stage-1 backed-up error (ghost counter backedUpErrors is one) while
the rejectedJobs metric is still zero, so the two rejection kinds are
not given the same metric treatment.  Six items are admitted against a
maximum concurrency of six, five fill the stage-1 channel, and the
sixth submission takes the handoff timeout branch. -/
theorem C6_counterexample :
    Reachable (initState 6) c6s12 ∧
    c6s12.backedUpErrors = 1 ∧
    c6s12.metrics.rejectedJobs = 0 ∧
    c6s12.metrics.activeJobs = 5 := by
  have h1 : Reachable c6s0 c6s1 :=
    Reachable.tail c6s0 c6s1 Reachable.refl (Step.admitGate c6s0 0 (by decide))
  have h2 : Reachable c6s0 c6s2 :=
    Reachable.tail c6s1 c6s2 h1 (Step.admitGate c6s1 1 (by decide))
  have h3 : Reachable c6s0 c6s3 :=
    Reachable.tail c6s2 c6s3 h2 (Step.admitGate c6s2 2 (by decide))
  have h4 : Reachable c6s0 c6s4 :=
    Reachable.tail c6s3 c6s4 h3 (Step.admitGate c6s3 3 (by decide))
  have h5 : Reachable c6s0 c6s5 :=
    Reachable.tail c6s4 c6s5 h4 (Step.admitGate c6s4 4 (by decide))
  have h6 : Reachable c6s0 c6s6 :=
    Reachable.tail c6s5 c6s6 h5 (Step.admitGate c6s5 5 (by decide))
  have h7 : Reachable c6s0 c6s7 :=
    Reachable.tail c6s6 c6s7 h6
      (Step.enqueueStage1 c6s6 [] [mkItem 1, mkItem 2, mkItem 3, mkItem 4, mkItem 5]
        (mkItem 0) (by decide) (by decide) (by decide))
  have h8 : Reachable c6s0 c6s8 :=
    Reachable.tail c6s7 c6s8 h7
      (Step.enqueueStage1 c6s7 [qItem 0] [mkItem 2, mkItem 3, mkItem 4, mkItem 5]
        (mkItem 1) (by decide) (by decide) (by decide))
  have h9 : Reachable c6s0 c6s9 :=
    Reachable.tail c6s8 c6s9 h8
      (Step.enqueueStage1 c6s8 [qItem 0, qItem 1] [mkItem 3, mkItem 4, mkItem 5]
        (mkItem 2) (by decide) (by decide) (by decide))
  have h10 : Reachable c6s0 c6s10 :=
    Reachable.tail c6s9 c6s10 h9
      (Step.enqueueStage1 c6s9 [qItem 0, qItem 1, qItem 2] [mkItem 4, mkItem 5]
        (mkItem 3) (by decide) (by decide) (by decide))
  have h11 : Reachable c6s0 c6s11 :=
    Reachable.tail c6s10 c6s11 h10
      (Step.enqueueStage1 c6s10 [qItem 0, qItem 1, qItem 2, qItem 3] [mkItem 5]
        (mkItem 4) (by decide) (by decide) (by decide))
  have h12 : Reachable c6s0 c6s12 :=
    Reachable.tail c6s11 c6s12 h11
      (Step.submitTimeout c6s11 [qItem 0, qItem 1, qItem 2, qItem 3, qItem 4] []
        (mkItem 5) 1000 (by decide) (by decide) (by decide) (by decide))
  exact ⟨h12, by decide, by decide, by decide⟩

/-- C2 (amended): an item's own cancellation is observed, with a token
release and an abandoned marking, at the admission wait, at the stage-1
enqueue wait and at the stage-1 worker's handoff to stage 2; it is not
observed anywhere later: every step that releases a token starts from an
item that is admitted, held by a stage-1 worker, or held by a stage-3
worker, so no release ever originates from the stage-2 channel, the
stage-2 worker's handoff or the stage-3 channel. -/
theorem C2_cancellation_scope :
    (∀ (s : GState) (pre post : List ItemState) (it : ItemState) (lat : Nat),
        s.items = pre ++ it :: post →
        it.phase = Phase.inStage1Proc →
        it.cancelled = true →
        0 < s.sem →
        Step s (handoff1CancelEff s pre post it lat) ∧
        (handoff1CancelEff s pre post it lat).released = s.released + 1 ∧
        (handoff1CancelEff s pre post it lat).items
          = pre ++ { it with phase := Phase.abandoned } :: post ∧
        (handoff1CancelEff s pre post it lat).metrics.completedJobs
          = s.metrics.completedJobs) ∧
    (∀ (s : GState) (pre post : List ItemState) (it : ItemState) (lat : Nat),
        s.items = pre ++ it :: post →
        it.phase = Phase.admitted →
        it.cancelled = true →
        0 < s.sem →
        Step s (submitCancelEff s pre post it lat)) ∧
    (∀ s s2 : GState, Step s s2 → s.released < s2.released →
        ∃ pre it post, s.items = pre ++ it :: post ∧
          (it.phase = Phase.admitted ∨ it.phase = Phase.inStage1Proc ∨
            it.phase = Phase.inStage3Proc)) := by
  refine ⟨?_, ?_, ?_⟩
  · intro s pre post it lat hmem hph hc hsem
    exact ⟨Step.handoff1Cancel s pre post it lat hmem hph hc hsem, rfl, rfl, rfl⟩
  · intro s pre post it lat hmem hph hc hsem
    exact Step.submitCancel s pre post it lat hmem hph hc hsem
  · intro s s2 hst hlt
    cases hst with
    | admitGate i hg => exact absurd hlt (by simp [admitGateEff])
    | rejectGateTimeout hfull => exact absurd hlt (by simp [rejectGateTimeoutEff])
    | rejectGateCancel => exact absurd hlt (by simp [rejectGateCancelEff])
    | enqueueStage1 pre post it hmem hph hq => exact absurd hlt (by simp [enqueueStage1Eff])
    | submitTimeout pre post it lat hmem hph hq hsem2 =>
        exact ⟨pre, it, post, hmem, Or.inl hph⟩
    | submitCancel pre post it lat hmem hph hc hsem2 =>
        exact ⟨pre, it, post, hmem, Or.inl hph⟩
    | pickup1 pre post it hmem hph hw => exact absurd hlt (by simp [pickup1Eff])
    | handoff12 pre post it hmem hph hq => exact absurd hlt (by simp [handoff12Eff])
    | handoff1Cancel pre post it lat hmem hph hc hsem2 =>
        exact ⟨pre, it, post, hmem, Or.inr (Or.inl hph)⟩
    | handoff1Drop pre post it hmem hph hstop => exact absurd hlt (by simp [handoff1DropEff])
    | pickup2 pre post it hmem hph hw => exact absurd hlt (by simp [pickup2Eff])
    | handoff23 pre post it hmem hph hq => exact absurd hlt (by simp [handoff23Eff])
    | handoff2Drop pre post it hmem hph hstop => exact absurd hlt (by simp [handoff2DropEff])
    | pickup3 pre post it hmem hph hw => exact absurd hlt (by simp [pickup3Eff])
    | complete pre post it lat hmem hph hsem2 =>
        exact ⟨pre, it, post, hmem, Or.inr (Or.inr hph)⟩
    | cancelItem pre post it hmem => exact absurd hlt (by simp [cancelItemEff])
    | stop => exact absurd hlt (by simp [stopEff])
    | exit1 hstop hidle => exact absurd hlt (by simp [exit1Eff])
    | exit2 hstop hidle => exact absurd hlt (by simp [exit2Eff])
    | exit3 hstop hidle => exact absurd hlt (by simp [exit3Eff])

theorem C2_witness :
    Step c2w (handoff1CancelEff c2w [] []
      { id := 0, cancelled := true, phase := Phase.inStage1Proc } 7) ∧
    (∃ pre it post, c2s8.items = pre ++ it :: post ∧
        (it.phase = Phase.admitted ∨ it.phase = Phase.inStage1Proc ∨
          it.phase = Phase.inStage3Proc)) :=
  ⟨(C2_cancellation_scope.1 c2w [] []
      { id := 0, cancelled := true, phase := Phase.inStage1Proc } 7
      (by decide) (by decide) (by decide) (by decide)).1,
   C2_cancellation_scope.2.2 c2s8 c2s9
     (Step.complete c2s8 [] [] { id := 0, cancelled := true, phase := Phase.inStage3Proc } 500
       (by decide) (by decide) (by decide))
     (by decide)⟩

/-- C2 counterexample: a reachable state in which the only item has had
its context cancelled while sitting in the stage-2 channel, and from
which the system reaches a state in which that same cancelled item has
been recorded as completed (token released by processStage3, completed
count one), not abandoned and not recorded as uncompleted as the claim
requires. -/
theorem C2_counterexample :
    Reachable (initState 1) c2s5 ∧
    c2s5.items = [{ id := 0, cancelled := true, phase := Phase.inStage2Q }] ∧
    Reachable c2s5 c2s9 ∧
    c2s9.items = [{ id := 0, cancelled := true, phase := Phase.completed }] ∧
    c2s9.metrics.completedJobs = 1 ∧
    c2s9.released = 1 := by
  have h1 : Reachable c2s0 c2s1 :=
    Reachable.tail c2s0 c2s1 Reachable.refl (Step.admitGate c2s0 0 (by decide))
  have h2 : Reachable c2s0 c2s2 :=
    Reachable.tail c2s1 c2s2 h1
      (Step.enqueueStage1 c2s1 [] [] (mkItem 0) (by decide) (by decide) (by decide))
  have h3 : Reachable c2s0 c2s3 :=
    Reachable.tail c2s2 c2s3 h2
      (Step.pickup1 c2s2 [] [] { id := 0, cancelled := false, phase := Phase.inStage1Q }
        (by decide) (by decide) (by decide))
  have h4 : Reachable c2s0 c2s4 :=
    Reachable.tail c2s3 c2s4 h3
      (Step.handoff12 c2s3 [] [] { id := 0, cancelled := false, phase := Phase.inStage1Proc }
        (by decide) (by decide) (by decide))
  have h5 : Reachable c2s0 c2s5 :=
    Reachable.tail c2s4 c2s5 h4
      (Step.cancelItem c2s4 [] [] { id := 0, cancelled := false, phase := Phase.inStage2Q }
        (by decide))
  have h6 : Reachable c2s5 c2s6 :=
    Reachable.tail c2s5 c2s6 Reachable.refl
      (Step.pickup2 c2s5 [] [] { id := 0, cancelled := true, phase := Phase.inStage2Q }
        (by decide) (by decide) (by decide))
  have h7 : Reachable c2s5 c2s7 :=
    Reachable.tail c2s6 c2s7 h6
      (Step.handoff23 c2s6 [] [] { id := 0, cancelled := true, phase := Phase.inStage2Proc }
        (by decide) (by decide) (by decide))
  have h8 : Reachable c2s5 c2s8 :=
    Reachable.tail c2s7 c2s8 h7
      (Step.pickup3 c2s7 [] [] { id := 0, cancelled := true, phase := Phase.inStage3Q }
        (by decide) (by decide) (by decide))
  have h9 : Reachable c2s5 c2s9 :=
    Reachable.tail c2s8 c2s9 h8
      (Step.complete c2s8 [] [] { id := 0, cancelled := true, phase := Phase.inStage3Proc } 500
        (by decide) (by decide) (by decide))
  exact ⟨h5, by decide, h9, by decide, by decide, by decide⟩

/-- C5 (amended): after Stop the coordinator context is cancelled and
every worker whose loop select is reachable (one not busy processing)
can observe it and exit, for all three stages; but SubmitJob never
consults the coordinator context, so with free capacity a submission
after Stop still acquires a token. -/
theorem C5_stop_semantics :
    (∀ s : GState, s.stopped = true → busy1 s < s.alive1 → Step s (exit1Eff s)) ∧
    (∀ s : GState, s.stopped = true → busy2 s < s.alive2 → Step s (exit2Eff s)) ∧
    (∀ s : GState, s.stopped = true → busy3 s < s.alive3 → Step s (exit3Eff s)) ∧
    (∀ (s : GState) (i : Nat), s.stopped = true → s.sem < s.wc.maxConcurrent →
        Step s (admitGateEff s i) ∧
        (admitGateEff s i).acquired = s.acquired + 1 ∧
        (admitGateEff s i).stopped = true) :=
  ⟨fun s h1 h2 => Step.exit1 s h1 h2,
   fun s h1 h2 => Step.exit2 s h1 h2,
   fun s h1 h2 => Step.exit3 s h1 h2,
   fun s i h1 h2 => ⟨Step.admitGate s i h2, rfl, h1⟩⟩

theorem C5_witness :
    Step (stopEff (initState 2)) (exit1Eff (stopEff (initState 2))) ∧
    Step (stopEff (initState 2)) (admitGateEff (stopEff (initState 2)) 0) :=
  ⟨C5_stop_semantics.1 (stopEff (initState 2)) (by decide) (by decide),
   (C5_stop_semantics.2.2.2 (stopEff (initState 2)) 0 (by decide) (by decide)).1⟩

/-- C5 counterexample: from the stopped initial state a SubmitJob still
admits (token acquired) and enqueues its item into the stage-1 channel,
so a subsequent SubmitJob after Stop does admit and enqueue a new item
into the pipeline. -/
theorem C5_counterexample :
    c5s0.stopped = true ∧
    Step c5s0 c5s1 ∧
    Step c5s1 c5s2 ∧
    c5s2.stopped = true ∧
    c5s2.acquired = 1 ∧
    c5s2.items = [{ id := 0, cancelled := false, phase := Phase.inStage1Q }] :=
  ⟨by decide,
   Step.admitGate c5s0 0 (by decide),
   Step.enqueueStage1 c5s1 [] [] (mkItem 0) (by decide) (by decide) (by decide),
   by decide, by decide, by decide⟩

/-- C7 counterexample: the constructor cannot produce a coordinator with
seven stage-1 workers or a stage-2 channel of capacity nine, whatever
its input, so worker counts and queue capacities are not accepted as
configuration inputs. -/
theorem C7_counterexample :
    (¬ ∃ n : Nat, (newWorkCoordinator n).stage1Workers = 7) ∧
    (¬ ∃ n : Nat, (newWorkCoordinator n).stage2Cap = 9) := by
  constructor <;> rintro ⟨n, h⟩ <;> simp [newWorkCoordinator] at h

/-- C7 (amended): the construction interface accepts exactly one
parameter, the maximum concurrency; worker counts and queue capacities
do not depend on the input, and the admission and stage-1 handoff waits
are top-level constants of 100 milliseconds and 1000 milliseconds. -/
theorem C7_single_parameter (n m : Nat) :
    (newWorkCoordinator n).maxConcurrent = n ∧
    (newWorkCoordinator n).stage1Workers = (newWorkCoordinator m).stage1Workers ∧
    (newWorkCoordinator n).stage2Workers = (newWorkCoordinator m).stage2Workers ∧
    (newWorkCoordinator n).stage3Workers = (newWorkCoordinator m).stage3Workers ∧
    (newWorkCoordinator n).stage1Cap = (newWorkCoordinator m).stage1Cap ∧
    (newWorkCoordinator n).stage2Cap = (newWorkCoordinator m).stage2Cap ∧
    (newWorkCoordinator n).stage3Cap = (newWorkCoordinator m).stage3Cap ∧
    (newWorkCoordinator 0).stage1Workers = 5 ∧
    (newWorkCoordinator 0).stage2Workers = 3 ∧
    (newWorkCoordinator 0).stage3Workers = 2 ∧
    (newWorkCoordinator 0).stage1Cap = 5 ∧
    (newWorkCoordinator 0).stage2Cap = 3 ∧
    (newWorkCoordinator 0).stage3Cap = 2 ∧
    admissionTimeoutMillis = 100 ∧
    stage1HandoffTimeoutMillis = 1000 := by
  simp [newWorkCoordinator, admissionTimeoutMillis, stage1HandoffTimeoutMillis]

/-- C8: the stage-1 result built by processStage1 carries the job's
identifier and original creation timestamp, and the stage-2 update
rewrites only the payload and the stage number, so the timestamp and
identifier seen at completion are the ones set at submission. -/
theorem C8_frame_preservation (j : job) (r : stage1Result) :
    (processStage1Result j).JobID = j.ID ∧
    (processStage1Result j).CreatedAt = j.CreatedAt ∧
    (processStage1Result j).Stage = 1 ∧
    (processStage1Result j).Processed = "stage1-" ++ j.Data ∧
    (processStage2Result r).JobID = r.JobID ∧
    (processStage2Result r).CreatedAt = r.CreatedAt ∧
    (processStage2Result r).Stage = 2 ∧
    (processStage2Result r).Processed = "stage2-" ++ r.Processed ∧
    (processStage2Result (processStage1Result j)).JobID = j.ID ∧
    (processStage2Result (processStage1Result j)).CreatedAt = j.CreatedAt := by
  simp [processStage1Result, processStage2Result]

/-- C9: the average-latency component of GetMetrics is zero whenever the
completed count is zero (the guard skips the division and the named
return value keeps its zero value), and is the integer quotient of the
cumulative latency by the completed count otherwise. -/
theorem C9_no_div_by_zero (m : Metrics) :
    (m.completedJobs = 0 → (GetMetrics m).2.2.2 = 0) ∧
    (0 < m.completedJobs →
        (GetMetrics m).2.2.2 = m.totalLatency / m.completedJobs) := by
  constructor <;> intro h <;> simp [GetMetrics, h]

theorem C9_witness :
    (GetMetrics { activeJobs := 0, rejectedJobs := 0, completedJobs := 0, totalLatency := 999 }).2.2.2 = 0 ∧
    (GetMetrics { activeJobs := 0, rejectedJobs := 0, completedJobs := 4, totalLatency := 10 }).2.2.2 = 2 :=
  ⟨(C9_no_div_by_zero
      { activeJobs := 0, rejectedJobs := 0, completedJobs := 0, totalLatency := 999 }).1 rfl,
   by
    have h := (C9_no_div_by_zero
      { activeJobs := 0, rejectedJobs := 0, completedJobs := 4, totalLatency := 10 }).2
      (by decide)
    simpa using h⟩

/-- Every step either leaves the completed count and the cumulative
latency untouched, or is the completion step of an item held by a
stage-3 worker. -/
theorem stepCompletionFrame (s s2 : GState) (hst : Step s s2) :
    (s2.metrics.completedJobs = s.metrics.completedJobs ∧
     s2.metrics.totalLatency = s.metrics.totalLatency) ∨
    (∃ pre it post lat, s.items = pre ++ it :: post ∧ it.phase = Phase.inStage3Proc ∧
        s2 = completeEff s pre post it lat) := by
  cases hst with
  | complete pre post it lat hmem hph hsem2 =>
      exact Or.inr ⟨pre, it, post, lat, hmem, hph, rfl⟩
  | admitGate i hg => exact Or.inl ⟨rfl, rfl⟩
  | rejectGateTimeout hfull => exact Or.inl ⟨rfl, rfl⟩
  | rejectGateCancel => exact Or.inl ⟨rfl, rfl⟩
  | enqueueStage1 pre post it hmem hph hq => exact Or.inl ⟨rfl, rfl⟩
  | submitTimeout pre post it lat hmem hph hq hsem2 => exact Or.inl ⟨rfl, rfl⟩
  | submitCancel pre post it lat hmem hph hc hsem2 => exact Or.inl ⟨rfl, rfl⟩
  | pickup1 pre post it hmem hph hw => exact Or.inl ⟨rfl, rfl⟩
  | handoff12 pre post it hmem hph hq => exact Or.inl ⟨rfl, rfl⟩
  | handoff1Cancel pre post it lat hmem hph hc hsem2 => exact Or.inl ⟨rfl, rfl⟩
  | handoff1Drop pre post it hmem hph hstop => exact Or.inl ⟨rfl, rfl⟩
  | pickup2 pre post it hmem hph hw => exact Or.inl ⟨rfl, rfl⟩
  | handoff23 pre post it hmem hph hq => exact Or.inl ⟨rfl, rfl⟩
  | handoff2Drop pre post it hmem hph hstop => exact Or.inl ⟨rfl, rfl⟩
  | pickup3 pre post it hmem hph hw => exact Or.inl ⟨rfl, rfl⟩
  | cancelItem pre post it hmem => exact Or.inl ⟨rfl, rfl⟩
  | stop => exact Or.inl ⟨rfl, rfl⟩
  | exit1 hstop hidle => exact Or.inl ⟨rfl, rfl⟩
  | exit2 hstop hidle => exact Or.inl ⟨rfl, rfl⟩
  | exit3 hstop hidle => exact Or.inl ⟨rfl, rfl⟩

/-- C10: trackJobEnd with completed false decrements the active count
and leaves the completed count and cumulative latency untouched;
trackJobEnd with completed true updates both together; and in the
transition system the only step that changes either the completed count
or the cumulative latency is the completion step of processStage3,
which also releases the token in the same event. -/
theorem C10_completion_accounting :
    (∀ (m : Metrics) (lat : Nat),
        (trackJobEnd m lat false).completedJobs = m.completedJobs ∧
        (trackJobEnd m lat false).totalLatency = m.totalLatency ∧
        (trackJobEnd m lat false).activeJobs = m.activeJobs - 1) ∧
    (∀ (m : Metrics) (lat : Nat),
        (trackJobEnd m lat true).completedJobs = m.completedJobs + 1 ∧
        (trackJobEnd m lat true).totalLatency = m.totalLatency + lat ∧
        (trackJobEnd m lat true).activeJobs = m.activeJobs - 1) ∧
    (∀ s s2 : GState, Step s s2 →
        (s.metrics.completedJobs ≠ s2.metrics.completedJobs ∨
         s.metrics.totalLatency ≠ s2.metrics.totalLatency) →
        ∃ pre it post lat, s.items = pre ++ it :: post ∧
          it.phase = Phase.inStage3Proc ∧
          s2 = completeEff s pre post it lat ∧
          s2.metrics.completedJobs = s.metrics.completedJobs + 1 ∧
          s2.metrics.totalLatency = s.metrics.totalLatency + lat ∧
          s2.released = s.released + 1) := by
  refine ⟨?_, ?_, ?_⟩
  · intro m lat
    exact ⟨rfl, rfl, rfl⟩
  · intro m lat
    exact ⟨rfl, rfl, rfl⟩
  · intro s s2 hst hne
    rcases stepCompletionFrame s s2 hst with ⟨h1, h2⟩ | ⟨pre, it, post, lat, hmem, hph, h2⟩
    · rcases hne with h | h
      · exact absurd h1.symm h
      · exact absurd h2.symm h
    · subst h2
      exact ⟨pre, it, post, lat, hmem, hph, rfl, rfl, rfl, rfl⟩

theorem C10_witness :
    ∃ pre it post lat,
      c10w.items = pre ++ it :: post ∧
      it.phase = Phase.inStage3Proc ∧
      completeEff c10w [] [] { id := 0, cancelled := false, phase := Phase.inStage3Proc } 9
        = completeEff c10w pre post it lat ∧
      (completeEff c10w [] []
          { id := 0, cancelled := false, phase := Phase.inStage3Proc } 9).metrics.completedJobs
        = c10w.metrics.completedJobs + 1 ∧
      (completeEff c10w [] []
          { id := 0, cancelled := false, phase := Phase.inStage3Proc } 9).metrics.totalLatency
        = c10w.metrics.totalLatency + lat ∧
      (completeEff c10w [] []
          { id := 0, cancelled := false, phase := Phase.inStage3Proc } 9).released
        = c10w.released + 1 :=
  C10_completion_accounting.2.2 c10w
    (completeEff c10w [] [] { id := 0, cancelled := false, phase := Phase.inStage3Proc } 9)
    (Step.complete c10w [] [] { id := 0, cancelled := false, phase := Phase.inStage3Proc } 9
      (by decide) (by decide) (by decide))
    (Or.inl (by decide))

end Rule1
